import Mathlib

/-!
Verification of the crop-advisory backend's inference pipeline
(`fastapi-backend/services/ml_service.py`, `crop_recommendation_service.py`,
`crop_analytics.py`, `agriculture_chatbot.py`, `main.py`).

Modelling conventions:
* Python floats are modelled exactly as rationals (`ℚ`); `round(x, n)` is
  modelled as decimal rounding half-to-even, Python's documented rounding mode.
* Values from loosely-typed request dictionaries that may fail `float()`
  conversion are modelled by `PyVal`; a failed conversion corresponds to the
  exception branch of the surrounding `try`/`except`.
* The opaque trained regressor is modelled as an arbitrary function from the
  model's feature vector to a rational (its raw hectograms/hectare output),
  and Python's builtin `hash` as an arbitrary function `String → ℤ`.
-/

/-- Python `round` to an integer: round half to even (banker's rounding). -/
def roundHalfEven (q : ℚ) : ℤ :=
  if q - ⌊q⌋ < 1/2 then ⌊q⌋
  else if 1/2 < q - ⌊q⌋ then ⌊q⌋ + 1
  else if ⌊q⌋ % 2 = 0 then ⌊q⌋ else ⌊q⌋ + 1

/-- Python `round(x, 2)` on an exact rational. -/
def pyRound2 (q : ℚ) : ℚ := (roundHalfEven (q * 100) : ℚ) / 100

/-- Python `round(x, 3)` on an exact rational. -/
def pyRound3 (q : ℚ) : ℚ := (roundHalfEven (q * 1000) : ℚ) / 1000

/-- A value taken from a `Dict[str, Any]` request payload, as seen by
`float(...)` / arithmetic: a number, an absent key, or a value on which
`float()` (or multiplication) raises. -/
inductive PyVal where
  | num (q : ℚ)
  | missing
  | bad
deriving DecidableEq

/-- `float(input_data.get(key, default))`: `missing` takes the default,
`bad` raises (modelled as `none`). -/
def PyVal.toFloat (v : PyVal) (default : ℚ) : Option ℚ :=
  match v with
  | .num q => some q
  | .missing => some default
  | .bad => none

/-- `input_data.get(key, default)` used directly in arithmetic
(no `float()` call, but a non-numeric value still raises when multiplied). -/
def PyVal.getNum (v : PyVal) (default : ℚ) : Option ℚ :=
  match v with
  | .num q => some q
  | .missing => some default
  | .bad => none

/-- The `input_data` dictionary passed to `_predict_yield_ml` /
`_fallback_yield_prediction`.  `crop` and `state` are passed through
`str(...)`, which is total, so they are modelled as the resulting strings;
`year` is always an `int` at every call site. -/
structure InputData where
  crop : String
  state : String
  year : ℤ
  rainfall : PyVal
  temperature : PyVal
  pesticides : PyVal
  area : PyVal

/-- ASCII lowercasing of Python `str.lower()` on the character list. -/
def lowerChars (s : String) : List Char := s.data.map Char.toLower

/-- `listPrefix p l` is Python's "l starts with p" on character lists. -/
def listPrefix : List Char → List Char → Bool
  | [], _ => true
  | _ :: _, [] => false
  | p :: ps, h :: hs => p == h && listPrefix ps hs

/-- Python's substring test `pat in hay` (contiguous substring). -/
def containsSub (pat : List Char) : List Char → Bool
  | [] => listPrefix pat []
  | h :: hs => listPrefix pat (h :: hs) || containsSub pat hs

/-- Temperature adjustment factor of `_fallback_yield_prediction`. -/
def tempFactor (temp : ℚ) : ℚ :=
  if 20 ≤ temp ∧ temp ≤ 30 then 1
  else if temp < 15 ∨ 40 < temp then 1/2
  else if temp < 20 ∨ 35 < temp then 7/10
  else 17/20

/-- Rainfall adjustment factor of `_fallback_yield_prediction`. -/
def rainFactor (rainfall : ℚ) : ℚ :=
  if 75 ≤ rainfall ∧ rainfall ≤ 200 then 1
  else if rainfall < 30 ∨ 400 < rainfall then 2/5
  else if rainfall < 50 ∨ 300 < rainfall then 3/5
  else 4/5

/-- Crop-specific adjustment factor of `_fallback_yield_prediction`
(substring tests on the lowercased crop string). -/
def cropFactor (crop : String) (temp rainfall : ℚ) : ℚ :=
  if containsSub "rice".data (lowerChars crop) then
    (if 150 < rainfall then 6/5 else 9/10)
  else if containsSub "wheat".data (lowerChars crop) then
    (if 15 ≤ temp ∧ temp ≤ 25 then 11/10 else 4/5)
  else if containsSub "maize".data (lowerChars crop) ||
      containsSub "corn".data (lowerChars crop) then
    (if (20 ≤ temp ∧ temp ≤ 30) ∧ 100 < rainfall then 23/20 else 17/20)
  else 1

/-- The fallback formula before rounding:
`base_yield * temp_factor * rain_factor * crop_factor` with `base_yield = 30`. -/
def rawFallbackYield (crop : String) (temp rainfall : ℚ) : ℚ :=
  30 * tempFactor temp * rainFactor rainfall * cropFactor crop temp rainfall

/-- The `adjustment_factors` sub-dictionary of a fallback prediction. -/
structure AdjustmentFactors where
  temperature_factor : ℚ
  rainfall_factor : ℚ
  crop_factor : ℚ
deriving DecidableEq

/-- Result dictionary of `_predict_yield_ml` / `_fallback_yield_prediction`:
the keys common to every return path, plus the optional factor block. -/
structure PredResult where
  predicted_yield_per_hectare : ℚ
  total_predicted_production : ℚ
  model_type : String
  adjustment_factors : Option AdjustmentFactors
deriving DecidableEq

/-- The `except` branch of `_fallback_yield_prediction`: safe default. -/
def emergencyDefault : PredResult :=
  { predicted_yield_per_hectare := 25
    total_predicted_production := 25
    model_type := "Emergency Default"
    adjustment_factors := none }

/-- `MLService._fallback_yield_prediction`: rule-based prediction; any
exception inside the `try` block (a failed `float()` conversion of
temperature or rainfall, or multiplying by a non-numeric area) yields the
emergency default. -/
def fallbackYieldPrediction (i : InputData) : PredResult :=
  match i.temperature.toFloat 25, i.rainfall.toFloat 100 with
  | some temp, some rainfall =>
    let tf := tempFactor temp
    let rf := rainFactor rainfall
    let cf := cropFactor i.crop temp rainfall
    let predicted_yield := 30 * tf * rf * cf
    match i.area.getNum 1 with
    | some area =>
      { predicted_yield_per_hectare := pyRound2 predicted_yield
        total_predicted_production := pyRound2 (predicted_yield * area)
        model_type := "Rule-based Fallback"
        adjustment_factors := some ⟨tf, rf, cf⟩ }
    | none => emergencyDefault
  | _, _ => emergencyDefault

/-- The label-encoder artifact `yield_encoders.joblib`: ordered label
vocabularies fixed at training time. -/
structure Encoders where
  area_classes : List String
  crop_classes : List String

/-- Categorical encoding of `_predict_yield_ml` (lines 296–318): member labels
get their first index (`list.index`); an unknown label gets index 0, but the
accompanying warning interpolates `classes[0]`, which raises `IndexError` on
an empty vocabulary (caught by the enclosing `try`). -/
def encodeLabel (classes : List String) (label : String) : Except Unit ℤ :=
  if label ∈ classes then .ok (classes.indexOf label)
  else
    match classes with
    | [] => .error ()
    | _ :: _ => .ok 0

/-- Encoding of the `Area` (state) feature: encoder vocabulary when encoders
are loaded, otherwise `hash(state_name) % 10`. -/
def areaEncoded (pyHash : String → ℤ) (enc : Option Encoders)
    (state : String) : Except Unit ℤ :=
  match enc with
  | some e => encodeLabel e.area_classes state
  | none => .ok ((pyHash state).emod 10)

/-- Encoding of the `Item` (crop) feature: encoder vocabulary when encoders
are loaded, otherwise `hash(crop_name) % 6`. -/
def cropEncoded (pyHash : String → ℤ) (enc : Option Encoders)
    (crop : String) : Except Unit ℤ :=
  match enc with
  | some e => encodeLabel e.crop_classes crop
  | none => .ok ((pyHash crop).emod 6)

/-- The fixed-order numeric feature vector
`[Year, rainfall_mm, pesticides_tonnes, avg_temp, Area, Item]`. -/
structure ModelInput where
  year : ℤ
  rainfall_mm : ℚ
  pesticides_tonnes : ℚ
  avg_temp : ℚ
  area : ℤ
  item : ℤ

/-- Assembling the model input inside `_predict_yield_ml`: encodes the two
categorical features and converts the numeric fields with `float()`; `none`
is any exception on this path (unknown label with empty vocabulary, or a
failed conversion), which the enclosing `try` routes to the fallback. -/
def buildModelInput (pyHash : String → ℤ) (enc : Option Encoders)
    (i : InputData) : Option ModelInput := do
  let a ← (areaEncoded pyHash enc i.state).toOption
  let c ← (cropEncoded pyHash enc i.crop).toOption
  let rain ← i.rainfall.toFloat 0
  let pest ← i.pesticides.toFloat 0
  let temp ← i.temperature.toFloat 25
  pure ⟨i.year, rain, pest, temp, a, c⟩

/-- The `try` body of `_predict_yield_ml` once a model is present: build the
feature vector, read the raw model output (hectograms/hectare), divide by 10
and round to quintals/hectare, and multiply by the area for the total. -/
def mlTry (pyHash : String → ℤ) (enc : Option Encoders)
    (model : ModelInput → ℚ) (i : InputData) : Option PredResult := do
  let mi ← buildModelInput pyHash enc i
  let area ← i.area.getNum 1
  let yq := pyRound2 (model mi / 10)
  pure { predicted_yield_per_hectare := yq
         total_predicted_production := pyRound2 (yq * area)
         model_type := "Random Forest ML Model"
         adjustment_factors := none }

/-- The in-memory state of `MLService` relevant to yield prediction. -/
structure MLState where
  yield_model : Option (ModelInput → ℚ)
  yield_encoders : Option Encoders
  is_initialized : Bool

/-- `MLService._predict_yield_ml`: fallback when no model is loaded, ML
prediction otherwise, with every exception inside the `try` block routed to
the fallback. -/
def predictYieldML (pyHash : String → ℤ) (st : MLState) (i : InputData) :
    PredResult :=
  match st.yield_model with
  | none => fallbackYieldPrediction i
  | some model =>
    match mlTry pyHash st.yield_encoders model i with
    | some r => r
    | none => fallbackYieldPrediction i

/-- Outcome of deserializing the yield-model artifact at startup:
file absent, `joblib.load` raised, or a successful load. -/
inductive LoadOutcome where
  | absent
  | deserializeError
  | loaded (model : ModelInput → ℚ) (enc : Option Encoders)

/-- `MLService._load_models` followed by `initialize` (which sets
`is_initialized`): any failure leaves `yield_model = None`. -/
def initializeService (o : LoadOutcome) : MLState :=
  match o with
  | .absent => ⟨none, none, true⟩
  | .deserializeError => ⟨none, none, true⟩
  | .loaded m e => ⟨some m, e, true⟩

/-- A sequence of yield predictions against the service: each request reads
the state and never writes it (no operation re-attempts loading). -/
def runService (pyHash : String → ℤ) :
    MLState → List InputData → List PredResult × MLState
  | st, [] => ([], st)
  | st, i :: rest =>
    let r := predictYieldML pyHash st i
    let (rs, st') := runService pyHash st rest
    (r :: rs, st')

/-- Response body of the `/api/predict/simple-yield` endpoint (the fields the
claims are about). -/
structure SimpleYieldBody where
  success : Bool
  predicted_yield : ℚ
  total_production : ℚ
  model_type : String

/-- Outcome of an HTTP request: a 200 body or an error status code. -/
inductive ApiResult (β : Type) where
  | ok (body : β)
  | error (status : ℕ)

/-- `predict_simple_yield` in `main.py`: typed (already validated) query
parameters; 503 while uninitialized, otherwise a 200 response wrapping
`_predict_yield_ml`. -/
def predictSimpleYield (pyHash : String → ℤ) (st : MLState)
    (crop state : String) (rainfall temperature : ℚ)
    (area pesticides : ℚ) (year : ℤ) : ApiResult SimpleYieldBody :=
  if st.is_initialized = false then .error 503
  else
    let i : InputData :=
      { crop := crop, state := state, year := year
        rainfall := .num rainfall, temperature := .num temperature
        pesticides := .num pesticides, area := .num area }
    let p := predictYieldML pyHash st i
    .ok { success := true
          predicted_yield := p.predicted_yield_per_hectare
          total_production := p.total_predicted_production
          model_type := p.model_type }

/-- One CSV row as seen by `CropAnalyticsService._validate_crop_data` after
the column check: each required column's cell, `none` when `pd.isna` holds. -/
structure CsvRow where
  field_name : Option String
  state : Option String
  district : Option String
  crop_type : Option String
  yield_per_hectare : Option ℚ
  field_size_hectares : Option ℚ

/-- The per-row classification of `_validate_crop_data` (lines 259–276):
a row is rejected when `field_name`, `state` or `crop_type` is NA, or when a
present `yield_per_hectare` or `field_size_hectares` is `≤ 0`. -/
def validateRow (r : CsvRow) : Bool :=
  !(r.field_name.isNone || r.state.isNone || r.crop_type.isNone) &&
  !(match r.yield_per_hectare with | some y => decide (y ≤ 0) | none => false) &&
  !(match r.field_size_hectares with | some s => decide (s ≤ 0) | none => false)

/-- The validated record built for an accepted row: NA `district` becomes
`""` and NA numeric cells become `0.0`. -/
structure CropRecord where
  field_name : String
  state : String
  district : String
  crop_type : String
  yield_per_hectare : ℚ
  field_size_hectares : ℚ

/-- The `valid_row` dictionary appended for a row that passed validation. -/
def acceptedRecord (r : CsvRow) : CropRecord :=
  { field_name := r.field_name.getD ""
    state := r.state.getD ""
    district := r.district.getD ""
    crop_type := r.crop_type.getD ""
    yield_per_hectare := r.yield_per_hectare.getD 0
    field_size_hectares := r.field_size_hectares.getD 0 }

/-- The claim's row-rejection predicate, following the spec's words
("reject rows missing required fields or with non-positive yield/area",
required fields being the six required columns). -/
def specRowInvalid (r : CsvRow) : Prop :=
  r.field_name = none ∨ r.state = none ∨ r.district = none ∨
  r.crop_type = none ∨ r.yield_per_hectare = none ∨
  r.field_size_hectares = none ∨
  (∃ y, r.yield_per_hectare = some y ∧ y ≤ 0) ∨
  (∃ s, r.field_size_hectares = some s ∧ s ≤ 0)

instance (r : CsvRow) : Decidable (specRowInvalid r) := by
  unfold specRowInvalid
  infer_instance

/-- Static per-crop requirement table of `MLService.recommend_crop`. -/
structure CropReq where
  crop : String
  nReq : ℚ
  pReq : ℚ
  kReq : ℚ
  phLo : ℚ
  phHi : ℚ
  tempLo : ℚ
  tempHi : ℚ
  humidityMin : ℚ
  rainfallMin : ℚ

/-- The `crops_data` literal in `MLService.recommend_crop`. -/
def cropsData : List CropReq :=
  [ ⟨"Rice", 80, 40, 40, 11/2, 7, 20, 35, 75, 1000⟩,
    ⟨"Wheat", 50, 30, 30, 6, 15/2, 15, 25, 50, 400⟩,
    ⟨"Maize", 70, 35, 35, 29/5, 7, 21, 30, 60, 500⟩,
    ⟨"Cotton", 60, 25, 50, 29/5, 8, 21, 32, 50, 400⟩,
    ⟨"Soybean", 20, 30, 100, 6, 7, 20, 30, 70, 450⟩ ]

/-- Nutrient closeness: `1 - abs(x - req) / max(x, req, 1)`. -/
def nutrientMatch (x req : ℚ) : ℚ := 1 - |x - req| / max x (max req 1)

/-- pH closeness: 1 inside the crop's range, degrading by distance / 2. -/
def phMatch (c : CropReq) (ph : ℚ) : ℚ :=
  if c.phLo ≤ ph ∧ ph ≤ c.phHi then 1
  else max 0 (1 - min |ph - c.phLo| |ph - c.phHi| / 2)

/-- Temperature closeness: 1 inside the range, degrading by distance / 15. -/
def temperatureMatch (c : CropReq) (t : ℚ) : ℚ :=
  if c.tempLo ≤ t ∧ t ≤ c.tempHi then 1
  else max 0 (1 - min |t - c.tempLo| |t - c.tempHi| / 15)

/-- Humidity closeness: 1 at or above the minimum, else the ratio. -/
def humidityMatch (c : CropReq) (h : ℚ) : ℚ :=
  if c.humidityMin ≤ h then 1 else h / c.humidityMin

/-- Rainfall closeness: 1 at or above the minimum, else the ratio. -/
def rainfallMatch (c : CropReq) (r : ℚ) : ℚ :=
  if c.rainfallMin ≤ r then 1 else r / c.rainfallMin

/-- One entry of the `recommendations` list (crop plus rounded score). -/
structure RecEntry where
  crop : String
  suitability_score : ℚ

/-- Scoring one candidate crop: the average of the seven per-dimension
matches, rounded to 3 decimals for the `suitability_score` field. -/
def scoreEntry (c : CropReq) (N P K temperature humidity ph rainfall : ℚ) :
    RecEntry :=
  let score := (nutrientMatch N c.nReq + nutrientMatch P c.pReq +
      nutrientMatch K c.kReq + phMatch c ph + temperatureMatch c temperature +
      humidityMatch c humidity + rainfallMatch c rainfall) / 7
  ⟨c.crop, pyRound3 score⟩

/-- Python `list.sort(key=key, reverse=True)`: stable descending sort. -/
def sortDescBy {α : Type} (key : α → ℚ) (l : List α) : List α :=
  l.mergeSort (fun a b => decide (key b ≤ key a))

/-- Descending sort followed by `[:3]`. -/
def top3By {α : Type} (key : α → ℚ) (l : List α) : List α :=
  (sortDescBy key l).take 3

/-- The `recommended_crops` list of `MLService.recommend_crop`: all five
candidates scored, sorted by `suitability_score` descending, first three. -/
def recommendCropML (N P K temperature humidity ph rainfall : ℚ) :
    List RecEntry :=
  top3By RecEntry.suitability_score
    (cropsData.map (fun c => scoreEntry c N P K temperature humidity ph rainfall))

/-- The `top_3_recommendations` of `CropRecommendationService.recommend_crop`
on the classifier path: the class/probability pairs of `predict_proba`
(one per model class, classes pairwise distinct), sorted by probability
descending, first three. -/
def top3Classifier (probs : List (String × ℚ)) : List (String × ℚ) :=
  top3By Prod.snd probs

/-- The deny list `non_ag_patterns` of `_is_agriculture_related`. -/
def nonAgPatterns : List String :=
  [ "what is the capital", "how to code", "how to cook", "tell me a joke",
    "best movies", "how to lose weight", "what is cryptocurrency",
    "what is machine learning", "how to fix", "what\x27s the weather like",
    "weather today", "current weather",
    "python", "javascript", "html", "css", "programming",
    "software", "computer", "algorithm",
    "history", "geography", "mathematics", "physics", "chemistry",
    "literature", "politics", "economics" ]

/-- The allow list `strong_ag_keywords`. -/
def strongAgKeywords : List String :=
  [ "crop", "harvest", "yield", "cultivation", "farming", "agriculture",
    "rice", "wheat", "maize", "corn", "cotton", "sugarcane", "pulse",
    "vegetable", "tomato", "potato", "onion", "mango",
    "farm", "field", "irrigation", "fertilizer", "pesticide", "insecticide",
    "herbicide", "organic", "compost", "manure", "mulch", "tillage",
    "sowing", "planting", "soil",
    "pest", "weed", "blight", "deficiency", "nutrition", "stunted",
    "kharif", "rabi", "zaid",
    "mandi", "msp", "subsidy" ]

/-- The weak-indicator list `contextual_keywords`. -/
def contextualKeywords : List String :=
  [ "plant", "seed", "disease", "yellow", "wilting", "rot", "growth",
    "attack", "water", "weather", "rain", "monsoon", "drought",
    "temperature", "climate", "season", "summer", "winter",
    "price", "market", "sell", "profit", "cost", "insurance", "loan",
    "scheme", "government" ]

/-- The `ag_context_words` list used to disambiguate weak indicators. -/
def agContextWords : List String :=
  [ "crop", "farm", "field", "agriculture", "cultivation",
    "harvest", "plant", "grow", "soil", "fertilizer" ]

/-- The `agricultural_phrases` special cases. -/
def agriculturalPhrases : List String :=
  [ "plant", "plants have", "my crop", "in my field", "farming",
    "for crops", "crop disease", "plant disease", "soil health",
    "irrigation", "best time to plant", "when to harvest",
    "fertilizer for", "pest control", "crop yield" ]

/-- `question.lower().strip()` as a character list. -/
def normalizeQuestion (q : String) : List Char :=
  ((q.data.map Char.toLower).dropWhile Char.isWhitespace).reverse.dropWhile
    Char.isWhitespace |>.reverse

/-- Does any pattern of the list occur in the normalized question? -/
def anyPatternIn (pats : List String) (ql : List Char) : Bool :=
  pats.any (fun p => containsSub p.data ql)

/-- `AgricultureChatbot._is_agriculture_related`: the deny list is checked
first and short-circuits to `false`; then strong keywords; then weak
indicators that additionally need agricultural context. -/
def isAgricultureRelated (q : String) : Bool :=
  if anyPatternIn nonAgPatterns (normalizeQuestion q) then false
  else if anyPatternIn strongAgKeywords (normalizeQuestion q) then true
  else if anyPatternIn contextualKeywords (normalizeQuestion q) then
    if anyPatternIn agContextWords (normalizeQuestion q) then true
    else if anyPatternIn agriculturalPhrases (normalizeQuestion q) then true
    else false
  else false

/-- The response shapes `get_agricultural_advice` can produce: the fixed
non-agricultural redirect template, an LLM answer, or the static rule-based
knowledge-base template. -/
inductive AdviceResponse where
  | redirect
  | llmAnswer (text : String)
  | ruleBased
deriving DecidableEq

/-- `AgricultureChatbot.get_agricultural_advice`: non-agricultural questions
get the fixed redirect; otherwise the external LLM answer is preferred when
the LLM service is initialized and succeeds (modelled by the oracle
`llmResult`), with the rule-based templates as fallback. -/
def getAgriculturalAdvice (llmInitialized : Bool) (llmResult : Option String)
    (q : String) : AdviceResponse :=
  if isAgricultureRelated q = false then .redirect
  else if llmInitialized then
    match llmResult with
    | some t => .llmAnswer t
    | none => .ruleBased
  else .ruleBased

/-! Helper lemmas about the rounding model and descending sorts. -/

lemma roundHalfEven_eq_floor_or (q : ℚ) :
    roundHalfEven q = ⌊q⌋ ∨ roundHalfEven q = ⌊q⌋ + 1 := by
  unfold roundHalfEven
  split_ifs <;> simp

lemma le_roundHalfEven {n : ℤ} {q : ℚ} (h : (n : ℚ) ≤ q) :
    n ≤ roundHalfEven q := by
  have hf : n ≤ ⌊q⌋ := Int.le_floor.mpr h
  rcases roundHalfEven_eq_floor_or q with h1 | h1 <;> omega

lemma roundHalfEven_le {n : ℤ} {q : ℚ} (h : q ≤ n) : roundHalfEven q ≤ n := by
  have hfn : ⌊q⌋ ≤ n := by
    have h2 : ⌊q⌋ ≤ ⌊(n : ℚ)⌋ := Int.floor_le_floor h
    simpa using h2
  unfold roundHalfEven
  split_ifs with h1 h2 h3
  all_goals first
    | exact hfn
    | · push_neg at h1
        have hlt : (⌊q⌋ : ℚ) < q := by linarith
        have hne : ⌊q⌋ < n := by
          rcases lt_or_eq_of_le hfn with hl | he
          · exact hl
          · exfalso
            rw [he] at hlt
            exact absurd h (not_le.mpr hlt)
        omega

lemma pyRound2_band {lo hi : ℤ} {q : ℚ} (h1 : (lo : ℚ) / 100 ≤ q)
    (h2 : q ≤ (hi : ℚ) / 100) :
    (lo : ℚ) / 100 ≤ pyRound2 q ∧ pyRound2 q ≤ (hi : ℚ) / 100 := by
  have hl : (lo : ℚ) ≤ q * 100 := by linarith
  have hh : q * 100 ≤ (hi : ℚ) := by linarith
  have l1 : lo ≤ roundHalfEven (q * 100) := le_roundHalfEven hl
  have l2 : roundHalfEven (q * 100) ≤ hi := roundHalfEven_le hh
  have c1 : (lo : ℚ) ≤ (roundHalfEven (q * 100) : ℚ) := by exact_mod_cast l1
  have c2 : ((roundHalfEven (q * 100) : ℤ) : ℚ) ≤ (hi : ℚ) := by exact_mod_cast l2
  unfold pyRound2
  constructor <;> linarith

lemma tempFactor_bounds (t : ℚ) : 1/2 ≤ tempFactor t ∧ tempFactor t ≤ 1 := by
  unfold tempFactor
  split_ifs <;> norm_num

lemma rainFactor_bounds (r : ℚ) : 2/5 ≤ rainFactor r ∧ rainFactor r ≤ 1 := by
  unfold rainFactor
  split_ifs <;> norm_num

lemma cropFactor_bounds (crop : String) (t r : ℚ) :
    4/5 ≤ cropFactor crop t r ∧ cropFactor crop t r ≤ 6/5 := by
  unfold cropFactor
  split_ifs <;> norm_num

lemma rawFallbackYield_bounds (crop : String) (t r : ℚ) :
    24/5 ≤ rawFallbackYield crop t r ∧ rawFallbackYield crop t r ≤ 36 := by
  obtain ⟨ht1, ht2⟩ := tempFactor_bounds t
  obtain ⟨hr1, hr2⟩ := rainFactor_bounds r
  obtain ⟨hc1, hc2⟩ := cropFactor_bounds crop t r
  have ha0 : (0 : ℚ) ≤ tempFactor t := by linarith
  have hb0 : (0 : ℚ) ≤ rainFactor r := by linarith
  have hc0 : (0 : ℚ) ≤ cropFactor crop t r := by linarith
  unfold rawFallbackYield
  constructor
  · have s1 : (1/2 : ℚ) * (2/5) ≤ tempFactor t * rainFactor r :=
      mul_le_mul ht1 hr1 (by norm_num) ha0
    have s2 : ((1/2 : ℚ) * (2/5)) * (4/5) ≤
        (tempFactor t * rainFactor r) * cropFactor crop t r :=
      mul_le_mul s1 hc1 (by norm_num) (mul_nonneg ha0 hb0)
    linarith
  · have s1 : tempFactor t * rainFactor r ≤ 1 * 1 :=
      mul_le_mul ht2 hr2 hb0 (by norm_num)
    have s2 : (tempFactor t * rainFactor r) * cropFactor crop t r ≤
        (1 : ℚ) * (6/5) :=
      mul_le_mul (by linarith) hc2 hc0 (by norm_num)
    linarith

lemma sortDescBy_pairwise {α : Type} (key : α → ℚ) (l : List α) :
    (sortDescBy key l).Pairwise (fun a b => key b ≤ key a) := by
  unfold sortDescBy
  refine (List.sorted_mergeSort ?_ ?_ l).imp ?_
  · intro a b c hab hbc
    simp only [decide_eq_true_eq] at *
    exact le_trans hbc hab
  · intro a b
    rcases le_total (key b) (key a) with h | h <;> simp [h]
  · intro a b hab
    simpa using hab

lemma top3By_pairwise {α : Type} (key : α → ℚ) (l : List α) :
    (top3By key l).Pairwise (fun a b => key b ≤ key a) := by
  unfold top3By
  exact List.Pairwise.sublist (List.take_sublist 3 _) (sortDescBy_pairwise key l)

lemma top3By_length {α : Type} (key : α → ℚ) (l : List α) (h : 3 ≤ l.length) :
    (top3By key l).length = 3 := by
  unfold top3By sortDescBy
  rw [List.length_take, (List.mergeSort_perm l _).length_eq]
  omega

lemma top3By_map_nodup {α β : Type} (key : α → ℚ) (f : α → β) (l : List α)
    (h : (l.map f).Nodup) : ((top3By key l).map f).Nodup := by
  unfold top3By sortDescBy
  have hperm := (List.mergeSort_perm l (fun a b => decide (key b ≤ key a))).map f
  have hnodup := hperm.nodup_iff.mpr h
  rw [List.map_take]
  exact List.Nodup.sublist (List.take_sublist 3 _) hnodup


/-! Concrete-evaluation helper lemmas (rational rounding cannot be evaluated
by kernel reduction, so the named values are established with `norm_num`). -/

lemma rawFallbackYield_maize_32_45 : rawFallbackYield "maize" 32 45 = 2601/200 := by
  rw [rawFallbackYield]
  norm_num [tempFactor, rainFactor, cropFactor,
    show containsSub "rice".data (lowerChars "maize") = false from rfl,
    show containsSub "wheat".data (lowerChars "maize") = false from rfl,
    show containsSub "maize".data (lowerChars "maize") = true from rfl]

lemma pyRound2_maizeTotal : pyRound2 ((2601/200 : ℚ) * 3) = 1951/50 := by
  have hf : ⌊((2601/200 : ℚ) * 3 * 100)⌋ = 3901 := by
    rw [Int.floor_eq_iff]
    norm_num
  unfold pyRound2 roundHalfEven
  rw [hf]
  norm_num

lemma pyRound2_maizeYield : pyRound2 (2601/200 : ℚ) = 13 := by
  have hf : ⌊((2601/200 : ℚ) * 100)⌋ = 1300 := by
    rw [Int.floor_eq_iff]
    norm_num
  unfold pyRound2 roundHalfEven
  rw [hf]
  norm_num

lemma pyRound2_thirteen_times_three : pyRound2 ((13 : ℚ) * 3) = 39 := by
  have h39 : ((13 : ℚ) * 3) = 39 := by norm_num
  have hf : ⌊((39 : ℚ) * 100)⌋ = 3900 := by
    rw [Int.floor_eq_iff]
    norm_num
  rw [h39]
  unfold pyRound2 roundHalfEven
  rw [hf]
  norm_num

/-! Claim theorems. -/

/-- Claim C1: with encoders loaded (their training vocabularies being
non-empty), any state or crop string outside the vocabulary is encoded
deterministically as index 0 and the feature vector is still built without
raising, for all inputs. -/
theorem unknownLabel_encoded_zero :
    ∀ (pyHash : String → ℤ) (e : Encoders) (crop state : String) (year : ℤ)
      (rain temp pest : ℚ) (area : PyVal),
      e.area_classes ≠ [] → e.crop_classes ≠ [] →
      state ∉ e.area_classes → crop ∉ e.crop_classes →
      buildModelInput pyHash (some e)
          ⟨crop, state, year, .num rain, .num temp, .num pest, area⟩
        = some ⟨year, rain, pest, temp, 0, 0⟩ := by
  intro pyHash e crop state year rain temp pest area hA hC hs hc
  obtain ⟨A, C⟩ := e
  dsimp only at hA hC hs hc
  rcases A with _ | ⟨a0, as⟩
  · exact absurd rfl hA
  rcases C with _ | ⟨c0, cs⟩
  · exact absurd rfl hC
  simp [buildModelInput, areaEncoded, cropEncoded, encodeLabel, hs, hc,
    PyVal.toFloat, Except.toOption]

/-- Witness for C1 at a concrete unknown state and crop. -/
theorem unknownLabel_encoded_zero_witness :
    (["Punjab"] : List String) ≠ [] ∧ (["Rice"] : List String) ≠ [] ∧
    "Atlantis" ∉ (["Punjab"] : List String) ∧
    "Dragonfruit" ∉ (["Rice"] : List String) ∧
    buildModelInput (fun _ => 0) (some ⟨["Punjab"], ["Rice"]⟩)
        ⟨"Dragonfruit", "Atlantis", 2024, .num 800, .num 25, .num 1, .num 2⟩
      = some ⟨2024, 800, 1, 25, 0, 0⟩ :=
  ⟨by decide, by decide, by decide, by decide,
    unknownLabel_encoded_zero (fun _ => 0) ⟨["Punjab"], ["Rice"]⟩
      "Dragonfruit" "Atlantis" 2024 800 25 1 (.num 2)
      (by decide) (by decide) (by decide) (by decide)⟩

/-- Claim C2 counterexample: on the rule-based fallback path of
`_predict_yield_ml` (crop "maize", temperature 32, rainfall 45, area 3) the
returned total production is 39.02 while rounding the returned per-hectare
yield (13) times the area gives 39, because the total is computed from the
unrounded formula value; so
`total_production = round(yield_per_hectare * area, 2)` fails. -/
theorem totalProduction_claim_counterexample :
    (predictYieldML (fun _ => 0) ⟨none, none, true⟩
        ⟨"maize", "Punjab", 2024, .num 45, .num 32, .num 0,
          .num 3⟩).total_predicted_production ≠
      pyRound2 ((predictYieldML (fun _ => 0) ⟨none, none, true⟩
        ⟨"maize", "Punjab", 2024, .num 45, .num 32, .num 0,
          .num 3⟩).predicted_yield_per_hectare * 3) := by
  have he : predictYieldML (fun _ => 0) ⟨none, none, true⟩
      ⟨"maize", "Punjab", 2024, .num 45, .num 32, .num 0, .num 3⟩
      = { predicted_yield_per_hectare :=
            pyRound2 (rawFallbackYield "maize" 32 45)
          total_predicted_production :=
            pyRound2 (rawFallbackYield "maize" 32 45 * 3)
          model_type := "Rule-based Fallback"
          adjustment_factors :=
            some ⟨tempFactor 32, rainFactor 45, cropFactor "maize" 32 45⟩ } := rfl
  rw [he]
  show pyRound2 (rawFallbackYield "maize" 32 45 * 3)
      ≠ pyRound2 (pyRound2 (rawFallbackYield "maize" 32 45) * 3)
  rw [rawFallbackYield_maize_32_45, pyRound2_maizeTotal, pyRound2_maizeYield,
    pyRound2_thirteen_times_three]
  norm_num

/-- Claim C2 as amended: on the ML path the returned total equals the rounded
product of the returned (already rounded) yield and the area; on the fallback
path the returned yield is the rounded formula value but the returned total
is the rounded product of the *unrounded* formula value and the area. -/
theorem totalProduction_formula :
    (∀ (pyHash : String → ℤ) (enc : Option Encoders) (model : ModelInput → ℚ)
        (i : InputData) (r : PredResult),
        mlTry pyHash enc model i = some r →
        ∃ a, i.area.getNum 1 = some a ∧
          r.total_predicted_production
            = pyRound2 (r.predicted_yield_per_hectare * a)) ∧
    (∀ (i : InputData) (temp rain a : ℚ),
        i.temperature.toFloat 25 = some temp →
        i.rainfall.toFloat 100 = some rain →
        i.area.getNum 1 = some a →
        (fallbackYieldPrediction i).predicted_yield_per_hectare
            = pyRound2 (rawFallbackYield i.crop temp rain) ∧
        (fallbackYieldPrediction i).total_predicted_production
            = pyRound2 (rawFallbackYield i.crop temp rain * a)) := by
  constructor
  · intro pyHash enc model i r h
    rcases hmi : buildModelInput pyHash enc i with _ | mi
    · simp [mlTry, hmi] at h
    rcases ha : i.area.getNum 1 with _ | a
    · simp [mlTry, hmi, ha] at h
    refine ⟨a, rfl, ?_⟩
    simp only [mlTry, hmi, ha, Option.bind_eq_bind, Option.some_bind,
      Option.pure_def, Option.some.injEq] at h
    subst h
    rfl
  · intro i temp rain a htemp hrain harea
    unfold fallbackYieldPrediction
    rw [htemp, hrain, harea]
    exact ⟨rfl, rfl⟩

/-- Witness for C2's amended theorem: a concrete ML-path prediction and a
concrete fallback-path prediction both satisfy the respective formulas. -/
theorem totalProduction_formula_witness :
    (∃ a, (PyVal.num 2).getNum 1 = some a ∧
        pyRound2 (pyRound2 ((100 : ℚ) / 10) * 2)
          = pyRound2 (pyRound2 ((100 : ℚ) / 10) * a)) ∧
    ((fallbackYieldPrediction
        ⟨"maize", "Punjab", 2024, .num 45, .num 32, .num 0,
          .num 3⟩).predicted_yield_per_hectare
        = pyRound2 (rawFallbackYield "maize" 32 45) ∧
      (fallbackYieldPrediction
        ⟨"maize", "Punjab", 2024, .num 45, .num 32, .num 0,
          .num 3⟩).total_predicted_production
        = pyRound2 (rawFallbackYield "maize" 32 45 * 3)) :=
  ⟨totalProduction_formula.1 (fun _ => 0) none (fun _ => 100)
      ⟨"Rice", "Punjab", 2024, .num 800, .num 25, .num 0, .num 2⟩
      { predicted_yield_per_hectare := pyRound2 ((100 : ℚ) / 10)
        total_predicted_production := pyRound2 (pyRound2 ((100 : ℚ) / 10) * 2)
        model_type := "Random Forest ML Model"
        adjustment_factors := none } rfl,
    totalProduction_formula.2
      ⟨"maize", "Punjab", 2024, .num 45, .num 32, .num 0, .num 3⟩
      32 45 3 rfl rfl rfl⟩

/-- Claim C3: whenever the ML path of `_predict_yield_ml` succeeds, the
returned per-hectare yield is exactly the model's raw hectograms/hectare
output divided by 10 (then rounded to 2 decimals), applied exactly once. -/
theorem mlYield_unit_conversion :
    ∀ (pyHash : String → ℤ) (st : MLState) (model : ModelInput → ℚ)
      (i : InputData) (r : PredResult),
      st.yield_model = some model →
      mlTry pyHash st.yield_encoders model i = some r →
      predictYieldML pyHash st i = r ∧
      ∃ mi, buildModelInput pyHash st.yield_encoders i = some mi ∧
        r.predicted_yield_per_hectare = pyRound2 (model mi / 10) := by
  intro pyHash st model i r hm h
  constructor
  · simp [predictYieldML, hm, h]
  · rcases hmi : buildModelInput pyHash st.yield_encoders i with _ | mi
    · simp [mlTry, hmi] at h
    rcases ha : i.area.getNum 1 with _ | a
    · simp [mlTry, hmi, ha] at h
    refine ⟨mi, rfl, ?_⟩
    simp only [mlTry, hmi, ha, Option.bind_eq_bind, Option.some_bind,
      Option.pure_def, Option.some.injEq] at h
    subst h
    rfl

/-- Witness for C3: a concrete model that outputs 123 hectograms/hectare
yields round(123 / 10, 2) quintals/hectare. -/
theorem mlYield_unit_conversion_witness :
    predictYieldML (fun _ => 0) ⟨some (fun _ => 123), none, true⟩
        ⟨"Rice", "Punjab", 2024, .num 800, .num 25, .num 0, .num 2⟩
      = { predicted_yield_per_hectare := pyRound2 ((123 : ℚ) / 10)
          total_predicted_production := pyRound2 (pyRound2 ((123 : ℚ) / 10) * 2)
          model_type := "Random Forest ML Model"
          adjustment_factors := none } ∧
    ∃ mi, buildModelInput (fun _ => (0 : ℤ)) none
        ⟨"Rice", "Punjab", 2024, .num 800, .num 25, .num 0, .num 2⟩
      = some mi ∧
      pyRound2 ((123 : ℚ) / 10) = pyRound2 ((123 : ℚ) / 10) :=
  mlYield_unit_conversion (fun _ => 0) ⟨some (fun _ => 123), none, true⟩
    (fun _ => 123)
    ⟨"Rice", "Punjab", 2024, .num 800, .num 25, .num 0, .num 2⟩
    { predicted_yield_per_hectare := pyRound2 ((123 : ℚ) / 10)
      total_predicted_production := pyRound2 (pyRound2 ((123 : ℚ) / 10) * 2)
      model_type := "Random Forest ML Model"
      adjustment_factors := none } rfl rfl

/-- Claim C4: while the service is initialized but the yield-model artifact
is absent (`yield_model is None`), every `/api/predict/simple-yield` request
gets a 200 response tagged `"Rule-based Fallback"`, never an error. -/
theorem missingModel_rule_based_200 :
    ∀ (pyHash : String → ℤ) (st : MLState) (crop state : String)
      (rainfall temperature area pesticides : ℚ) (year : ℤ),
      st.is_initialized = true → st.yield_model = none →
      predictSimpleYield pyHash st crop state rainfall temperature area
          pesticides year
        = .ok { success := true
                predicted_yield :=
                  pyRound2 (rawFallbackYield crop temperature rainfall)
                total_production :=
                  pyRound2 (rawFallbackYield crop temperature rainfall * area)
                model_type := "Rule-based Fallback" } := by
  intro pyHash st crop state rainfall temperature area pesticides year hinit hm
  obtain ⟨ym, enc, init⟩ := st
  have h1 : init = true := hinit
  have h2 : ym = none := hm
  subst h1
  subst h2
  rfl

/-- Witness for C4 at a concrete request against an initialized service with
no model artifact. -/
theorem missingModel_rule_based_200_witness :
    (MLState.mk none none true).is_initialized = true ∧
    (MLState.mk none none true).yield_model = none ∧
    predictSimpleYield (fun _ => 0) ⟨none, none, true⟩ "Rice" "Punjab"
        800 25 (5/2) (1/10) 2024
      = .ok { success := true
              predicted_yield := pyRound2 (rawFallbackYield "Rice" 25 800)
              total_production :=
                pyRound2 (rawFallbackYield "Rice" 25 800 * (5/2))
              model_type := "Rule-based Fallback" } :=
  ⟨rfl, rfl,
    missingModel_rule_based_200 (fun _ => 0) ⟨none, none, true⟩ "Rice" "Punjab"
      800 25 (5/2) (1/10) 2024 rfl rfl⟩

/-- Claim C5: if loading the yield-model artifact fails at startup (absent
file or deserialization exception), the service starts with
`yield_model = none` and stays there for any sequence of yield predictions
(no operation re-attempts loading), every one of which is answered by the
rule-based fallback. -/
theorem loadFailure_permanent_rule_based :
    ∀ (o : LoadOutcome) (pyHash : String → ℤ) (reqs : List InputData),
      o = .absent ∨ o = .deserializeError →
      (initializeService o).yield_model = none ∧
      (runService pyHash (initializeService o) reqs).2 = initializeService o ∧
      (runService pyHash (initializeService o) reqs).1
        = reqs.map fallbackYieldPrediction := by
  intro o pyHash reqs ho
  have hnone : (initializeService o).yield_model = none := by
    rcases ho with h | h <;> subst h <;> rfl
  have key : ∀ (st : MLState), st.yield_model = none →
      ∀ rs : List InputData,
        runService pyHash st rs = (rs.map fallbackYieldPrediction, st) := by
    intro st hst rs
    induction rs with
    | nil => rfl
    | cons i rest ih =>
      simp [runService, ih, predictYieldML, hst]
  refine ⟨hnone, ?_, ?_⟩ <;> rw [key _ hnone reqs]

/-- Witness for C5 with a concrete deserialization failure and one request. -/
theorem loadFailure_permanent_rule_based_witness :
    (initializeService .deserializeError).yield_model = none ∧
    (runService (fun _ => 0) (initializeService .deserializeError)
        [⟨"Rice", "Punjab", 2024, .num 800, .num 25, .num 0, .num 2⟩]).2
      = initializeService .deserializeError ∧
    (runService (fun _ => 0) (initializeService .deserializeError)
        [⟨"Rice", "Punjab", 2024, .num 800, .num 25, .num 0, .num 2⟩]).1
      = [⟨"Rice", "Punjab", 2024, .num 800, .num 25, .num 0,
          .num 2⟩].map fallbackYieldPrediction :=
  loadFailure_permanent_rule_based .deserializeError (fun _ => 0)
    [⟨"Rice", "Punjab", 2024, .num 800, .num 25, .num 0, .num 2⟩]
    (Or.inr rfl)

/-- Claim C6: for every temperature, rainfall and crop string, the fallback
factors stay in their fixed ranges (temperature factor in [0.5, 1],
rainfall factor in [0.4, 1], crop factor in [0.8, 1.2]), so the rule-based
yield formula (and the per-hectare yield the fallback returns) always lies
in the fixed band [4.8, 36] quintals/hectare. -/
theorem fallback_factors_and_yield_bounded :
    ∀ (crop state : String) (year : ℤ) (pest : PyVal) (temp rain area : ℚ),
      (1/2 ≤ tempFactor temp ∧ tempFactor temp ≤ 1) ∧
      (2/5 ≤ rainFactor rain ∧ rainFactor rain ≤ 1) ∧
      (4/5 ≤ cropFactor crop temp rain ∧ cropFactor crop temp rain ≤ 6/5) ∧
      (24/5 ≤ rawFallbackYield crop temp rain ∧
        rawFallbackYield crop temp rain ≤ 36) ∧
      (24/5 ≤ (fallbackYieldPrediction
          ⟨crop, state, year, .num rain, .num temp, pest,
            .num area⟩).predicted_yield_per_hectare ∧
        (fallbackYieldPrediction
          ⟨crop, state, year, .num rain, .num temp, pest,
            .num area⟩).predicted_yield_per_hectare ≤ 36) := by
  intro crop state year pest temp rain area
  obtain ⟨hy1, hy2⟩ := rawFallbackYield_bounds crop temp rain
  refine ⟨tempFactor_bounds temp, rainFactor_bounds rain,
    cropFactor_bounds crop temp rain, ⟨hy1, hy2⟩, ?_⟩
  have hfb : (fallbackYieldPrediction
      ⟨crop, state, year, .num rain, .num temp, pest,
        .num area⟩).predicted_yield_per_hectare
      = pyRound2 (rawFallbackYield crop temp rain) := rfl
  rw [hfb]
  have h1 : ((480 : ℤ) : ℚ) / 100 ≤ rawFallbackYield crop temp rain := by
    push_cast
    linarith
  have h2 : rawFallbackYield crop temp rain ≤ ((3600 : ℤ) : ℚ) / 100 := by
    push_cast
    linarith
  obtain ⟨hb1, hb2⟩ := pyRound2_band h1 h2
  push_cast at hb1 hb2
  constructor <;> linarith

/-- Claim C7: the top-3 crop-recommendation list is sorted descending by its
confidence/suitability key and holds exactly 3 pairwise-distinct crops:
for the classifier path of `CropRecommendationService.recommend_crop`
whenever the model has at least 3 (distinct) classes, and always for the
5-candidate similarity fallback of `MLService.recommend_crop`. -/
theorem top3_sorted_distinct :
    (∀ probs : List (String × ℚ),
      (probs.map Prod.fst).Nodup → 3 ≤ probs.length →
      (top3Classifier probs).length = 3 ∧
      (top3Classifier probs).Pairwise (fun a b => b.2 ≤ a.2) ∧
      ((top3Classifier probs).map Prod.fst).Nodup) ∧
    (∀ N P K temperature humidity ph rainfall : ℚ,
      (recommendCropML N P K temperature humidity ph rainfall).length = 3 ∧
      (recommendCropML N P K temperature humidity ph rainfall).Pairwise
        (fun a b => b.suitability_score ≤ a.suitability_score) ∧
      ((recommendCropML N P K temperature humidity ph rainfall).map
        RecEntry.crop).Nodup) := by
  constructor
  · intro probs hnd hlen
    exact ⟨top3By_length _ _ hlen, top3By_pairwise _ _,
      top3By_map_nodup _ _ _ hnd⟩
  · intro N P K temperature humidity ph rainfall
    refine ⟨?_, top3By_pairwise _ _, ?_⟩
    · apply top3By_length
      simp [cropsData]
    · apply top3By_map_nodup
      have hmap : ((cropsData.map (fun c =>
          scoreEntry c N P K temperature humidity ph rainfall)).map
            RecEntry.crop)
          = ["Rice", "Wheat", "Maize", "Cotton", "Soybean"] := rfl
      rw [hmap]
      decide

/-- Witness for C7's classifier part on a concrete 4-class probability
list. -/
theorem top3_sorted_distinct_witness :
    (([("rice", (1 : ℚ)/2), ("maize", 3/10), ("wheat", 1/10),
        ("jute", 1/10)].map Prod.fst).Nodup ∧
      3 ≤ ([("rice", (1 : ℚ)/2), ("maize", 3/10), ("wheat", 1/10),
        ("jute", 1/10)] : List (String × ℚ)).length) ∧
    ((top3Classifier [("rice", (1 : ℚ)/2), ("maize", 3/10), ("wheat", 1/10),
        ("jute", 1/10)]).length = 3 ∧
      (top3Classifier [("rice", (1 : ℚ)/2), ("maize", 3/10), ("wheat", 1/10),
        ("jute", 1/10)]).Pairwise (fun a b => b.2 ≤ a.2) ∧
      ((top3Classifier [("rice", (1 : ℚ)/2), ("maize", 3/10), ("wheat", 1/10),
        ("jute", 1/10)]).map Prod.fst).Nodup) :=
  ⟨⟨by decide, by decide⟩,
    top3_sorted_distinct.1
      [("rice", (1 : ℚ)/2), ("maize", 3/10), ("wheat", 1/10), ("jute", 1/10)]
      (by decide) (by decide)⟩

/-- Claim C8 counterexample: the row (field_name "Field A", state "Punjab",
district NA, crop_type "Rice", yield NA, field size NA) is missing required
fields and ends up with non-positive (zero) yield and area, yet the
validator accepts it — so "invalid iff missing a required field or
non-positive yield/area" fails, as does "every accepted row has all required
fields present and positive yield and area". -/
theorem rowValidation_claim_counterexample :
    validateRow ⟨some "Field A", some "Punjab", none, some "Rice",
        none, none⟩ = true ∧
    specRowInvalid ⟨some "Field A", some "Punjab", none, some "Rice",
        none, none⟩ ∧
    (acceptedRecord ⟨some "Field A", some "Punjab", none, some "Rice",
        none, none⟩).yield_per_hectare = 0 ∧
    (acceptedRecord ⟨some "Field A", some "Punjab", none, some "Rice",
        none, none⟩).field_size_hectares = 0 :=
  ⟨rfl, Or.inr (Or.inr (Or.inl rfl)), rfl, rfl⟩

/-- Claim C8 as amended: the validator rejects a row exactly when
`field_name`, `state` or `crop_type` is missing, or a *present*
yield-per-hectare is non-positive, or a *present* field size is
non-positive; missing `district`, yield or field-size cells are accepted
(and default to `""` / `0.0` in the stored record). -/
theorem rowValidation_characterization :
    ∀ r : CsvRow, validateRow r = false ↔
      (r.field_name = none ∨ r.state = none ∨ r.crop_type = none ∨
        (∃ y, r.yield_per_hectare = some y ∧ y ≤ 0) ∨
        (∃ s, r.field_size_hectares = some s ∧ s ≤ 0)) := by
  intro r
  obtain ⟨f, s, d, c, y, fs⟩ := r
  rcases f with _ | fv <;> rcases s with _ | sv <;> rcases c with _ | cv <;>
    rcases y with _ | yv <;> rcases fs with _ | fsv <;>
      simp [validateRow, ← not_le] <;> tauto

/-- Claim C9: any chat message whose normalized (lowercased, stripped) text
contains a deny-list pattern is classified non-agricultural — the deny-list
check runs first, regardless of agriculture keywords also present — and
`get_agricultural_advice` answers with the fixed redirect template, never an
LLM answer. -/
theorem denyList_short_circuit :
    ∀ (llmInitialized : Bool) (llmResult : Option String) (q : String),
      anyPatternIn nonAgPatterns (normalizeQuestion q) = true →
      isAgricultureRelated q = false ∧
      getAgriculturalAdvice llmInitialized llmResult q = .redirect := by
  intro llmInitialized llmResult q h
  have hfalse : isAgricultureRelated q = false := by
    simp [isAgricultureRelated, h]
  exact ⟨hfalse, by simp [getAgriculturalAdvice, hfalse]⟩

/-- Witness for C9: "Tell me a joke about my crop yield" contains the
deny-list pattern "tell me a joke" (and agriculture keywords), is classified
non-agricultural, and receives the redirect even with a working LLM. -/
theorem denyList_short_circuit_witness :
    anyPatternIn nonAgPatterns
        (normalizeQuestion "Tell me a joke about my crop yield") = true ∧
    anyPatternIn strongAgKeywords
        (normalizeQuestion "Tell me a joke about my crop yield") = true ∧
    (isAgricultureRelated "Tell me a joke about my crop yield" = false ∧
      getAgriculturalAdvice true (some "llm answer")
        "Tell me a joke about my crop yield" = .redirect) :=
  ⟨by decide, by decide,
    denyList_short_circuit true (some "llm answer")
      "Tell me a joke about my crop yield" (by decide)⟩

/-- Claim C10: `_fallback_yield_prediction` is total — every input yields a
result carrying the yield/total/model-type fields; inputs on which the
internal computation raises (temperature or rainfall not convertible to
float, non-numeric area) get the emergency default of 25.0 for both the
per-hectare yield and the total production. -/
theorem fallback_never_raises :
    ∀ i : InputData,
      (fallbackYieldPrediction i = emergencyDefault ∨
        (fallbackYieldPrediction i).model_type = "Rule-based Fallback") ∧
      (emergencyDefault.predicted_yield_per_hectare = 25 ∧
        emergencyDefault.total_predicted_production = 25 ∧
        emergencyDefault.model_type = "Emergency Default") ∧
      ((i.temperature.toFloat 25 = none ∨ i.rainfall.toFloat 100 = none ∨
          i.area.getNum 1 = none) →
        fallbackYieldPrediction i = emergencyDefault) := by
  intro i
  obtain ⟨crop, state, year, rain, temp, pest, area⟩ := i
  refine ⟨?_, ⟨rfl, rfl, rfl⟩, ?_⟩ <;>
    rcases temp with _ | _ | _ <;> rcases rain with _ | _ | _ <;>
      rcases area with _ | _ | _ <;>
        simp [fallbackYieldPrediction, PyVal.toFloat, PyVal.getNum]

/-- Witness for C10: a temperature that `float()` cannot convert produces
exactly the emergency default. -/
theorem fallback_never_raises_witness :
    fallbackYieldPrediction
        ⟨"Rice", "Punjab", 2024, .num 100, .bad, .num 0, .num 1⟩
      = emergencyDefault :=
  (fallback_never_raises
      ⟨"Rice", "Punjab", 2024, .num 100, .bad, .num 0, .num 1⟩).2.2
    (Or.inl rfl)
